import Mathlib

/-!
Shallow embedding of the KEL103 electronic-load driver (src/src/lib.rs).

Modelling choices:
* Rust `String`/byte buffers are modelled as `List Char` (`Str`).  Replies are
  ASCII, so the UTF-8 decoding step of `send_recv` is the identity here and the
  `trim` of Rust (Unicode white space) is modelled on the ASCII white-space
  characters that can occur in protocol replies.
* `f32` values are modelled as exact rationals (`ℚ`).  The fixed 3-decimal
  formatting and the 1e-9 tolerance of the source are exact in this
  idealisation.  Non-finite float literals (inf, nan) are outside the model.
* The serial transport is a `Device` state: the stream of bytes written so
  far, the number of flush calls, and the bytes queued for reading.  Transport
  I/O failures are not modelled; every operation threads the `Device` state
  explicitly, mirroring the `&mut self` of the source, so the transport state
  after an error is observable.
* `KelError` mirrors the source enum.  The source interpolates the numeric
  values into a message string via the Display trait of `f32`; the model keeps
  the interpolated data (quantity name, expected and observed value) as fields
  of the constructor.  `ParseFloat` wraps `std::num::ParseFloatError`, which
  carries only a kind (empty input or invalid literal), not the offending
  text; `FloatErrorKind` models that kind.
-/

namespace KelModel

/-- Rust strings / byte sequences, modelled as lists of characters. -/
abbrev Str := List Char

/-- Shorthand turning a Lean string literal into the `Str` model. -/
def str (s : String) : Str := s.data

instance {ε α : Type} [DecidableEq ε] [DecidableEq α] :
    DecidableEq (Except ε α) := fun x y =>
  match x, y with
  | .ok a, .ok b =>
    if h : a = b then .isTrue (by rw [h])
    else .isFalse (by intro hc; injection hc with h2; exact h h2)
  | .error a, .error b =>
    if h : a = b then .isTrue (by rw [h])
    else .isFalse (by intro hc; injection hc with h2; exact h h2)
  | .ok _, .error _ => .isFalse (by intro hc; exact Except.noConfusion hc)
  | .error _, .ok _ => .isFalse (by intro hc; exact Except.noConfusion hc)

/-- ASCII white-space predicate used by the model of Rust `str::trim`. -/
def isWhitespaceChar (c : Char) : Bool :=
  c = ' ' || c = '\t' || c = '\n' || c = '\r'

/-- Rust `str::trim_end_matches` with a character-set pattern: repeatedly
remove a trailing character that belongs to `pat`. -/
def trimEndMatches (pat : Str) (s : Str) : Str :=
  (s.reverse.dropWhile (fun c => pat.contains c)).reverse

/-- Rust `str::trim`: drop leading and trailing white space. -/
def trimStr (s : Str) : Str :=
  ((s.dropWhile isWhitespaceChar).reverse.dropWhile isWhitespaceChar).reverse

/-- Rust `str::contains` with a string pattern: substring containment. -/
def containsSub (s pat : Str) : Bool :=
  match s with
  | [] => pat.isEmpty
  | _ :: rest => pat.isPrefixOf s || containsSub rest pat

/-- Decimal digit test. -/
def isDigit (c : Char) : Bool := '0' ≤ c && c ≤ '9'

/-- Split a string into its maximal leading run of decimal digits and the
rest. -/
def takeDigits : Str → Str × Str
  | [] => ([], [])
  | c :: rest =>
    if isDigit c then
      let (d, r) := takeDigits rest
      (c :: d, r)
    else ([], c :: rest)

/-- Numeric value of a digit string (most significant digit first). -/
def digitsToNat (ds : Str) : Nat :=
  ds.foldl (fun n c => 10 * n + (c.toNat - 48)) 0

/-- Apply an optional trailing decimal exponent (`e`/`E`, optional sign,
digits) to a parsed mantissa given as a numerator over a power-of-ten
denominator; anything else trailing makes the parse fail.  The rational is
assembled with `mkRat` so that it evaluates by kernel reduction. -/
def applyExp (num : ℤ) (den : ℕ) (s : Str) : Option ℚ :=
  match s with
  | [] => some (mkRat num den)
  | c :: r =>
    if c = 'e' || c = 'E' then
      let (eneg, r1) : Bool × Str :=
        match r with
        | '-' :: r2 => (true, r2)
        | '+' :: r2 => (false, r2)
        | _ => (false, r)
      let (eds, r2) := takeDigits r1
      if eds.isEmpty || !r2.isEmpty then none
      else
        if eneg then some (mkRat num (den * 10 ^ digitsToNat eds))
        else some (mkRat (num * (10 : ℤ) ^ digitsToNat eds) den)
    else none

/-- Core of Rust `str::parse::<f32>` on finite decimal literals: optional
sign, integer digits, optional fraction, optional exponent; at least one
mantissa digit; the whole string must be consumed.  The literal
`[sign]ip.fp` denotes the rational `sign * (ip * 10 ^ |fp| + fp) / 10 ^ |fp|`. -/
def parseCore (s : Str) : Option ℚ :=
  let (sign, s1) : ℤ × Str :=
    match s with
    | '-' :: r => (-1, r)
    | '+' :: r => (1, r)
    | _ => (1, s)
  let (ip, s2) := takeDigits s1
  match s2 with
  | '.' :: r =>
    let (fp, s3) := takeDigits r
    if ip.isEmpty && fp.isEmpty then none
    else applyExp
      (sign * ((digitsToNat ip * 10 ^ fp.length + digitsToNat fp : ℕ) : ℤ))
      (10 ^ fp.length) s3
  | _ =>
    if ip.isEmpty then none
    else applyExp (sign * (digitsToNat ip : ℤ)) 1 s2

/-- The kind carried by `std::num::ParseFloatError`: empty input or invalid
literal.  The error does not carry the offending text. -/
inductive FloatErrorKind where
  | empty
  | invalid
deriving DecidableEq

/-- Rust `str::parse::<f32>` as modelled: empty input gives the `empty` kind,
any other failure the `invalid` kind. -/
def parseFloatR (s : Str) : Except FloatErrorKind ℚ :=
  if s.isEmpty then .error .empty
  else
    match parseCore s with
    | some q => .ok q
    | none => .error .invalid

/-- Character for a decimal digit value. -/
def digitChar (d : Nat) : Char := Char.ofNat (48 + d)

/-- Fuel-indexed decimal rendering of a natural number. -/
def natToDigitsAux : Nat → Nat → Str
  | 0, _ => []
  | fuel + 1, n =>
    if n < 10 then [digitChar n]
    else natToDigitsAux fuel (n / 10) ++ [digitChar (n % 10)]

/-- Decimal rendering of a natural number. -/
def natToStr (n : Nat) : Str := natToDigitsAux (n + 1) n

/-- Exactly three decimal digits, zero padded. -/
def pad3 (m : Nat) : Str :=
  [digitChar (m / 100), digitChar (m / 10 % 10), digitChar (m % 10)]

/-- `q` scaled by 1000 and rounded to the nearest integer (halves up):
the floor of `q * 1000 + 1 / 2`, written with integer arithmetic so that it
evaluates by kernel reduction. -/
def round3Int (q : ℚ) : ℤ := Int.fdiv (2000 * q.num + q.den) (2 * q.den)

/-- The Rust fixed-precision format with 3 decimals, on the rational
idealisation of `f32`: round to the nearest thousandth and render with
exactly three digits after the decimal point. -/
def formatFixed3 (q : ℚ) : Str :=
  let n : ℤ := round3Int q
  (if n < 0 then ['-'] else []) ++
    natToStr (n.natAbs / 1000) ++ ['.'] ++ pad3 (n.natAbs % 1000)

/-- The absolute tolerance (source literal 1e-9) of write verification. -/
def tol : ℚ := mkRat 1 1000000000

/-- Exact subtraction on the rational model of `f32`, written with `mkRat`
so that it evaluates by kernel reduction; equal to `a - b` (see
`ratSub_eq`). -/
def ratSub (a b : ℚ) : ℚ := mkRat (a.num * b.den - b.num * a.den) (a.den * b.den)

/-- `f32::abs` on the rational model, written so that it evaluates by
kernel reduction; equal to `|q|` (see `ratAbs_eq`). -/
def ratAbs (q : ℚ) : ℚ := if q < 0 then -q else q

/-- The serial transport state: every byte written so far, the number of
flush calls, and the bytes queued for the driver to read. -/
structure Device where
  written : Str
  flushes : Nat
  input : Str
deriving DecidableEq

/-- The error enum of the source (`KelError`).  `parseFloat` wraps the kind
of `std::num::ParseFloatError`; `valueError` keeps the quantity name and the
two numbers the source interpolates into its message ("... set incorrectly on
the device. Expected .., got .."); `valueErrorBool` likewise for the output
state; `deviceError` and `deviceModel` carry the raw reply. -/
inductive KelError where
  | parseFloat (kind : FloatErrorKind)
  | valueError (quantity : Str) (expected observed : ℚ)
  | valueErrorBool (expected observed : Bool)
  | deviceError (reply : Str)
  | deviceModel (reply : Str)
deriving DecidableEq

/-- `Kel103::send`: write the message bytes, write a single newline, flush. -/
def send (message : Str) (dev : Device) : Device :=
  { dev with
    written := dev.written ++ message ++ ['\n']
    flushes := dev.flushes + 1 }

/-- `BufRead::read_until(b'\n')`: consume input up to and including the
first newline, or all remaining input when no newline is queued (end of
input is not an error).  Returns the bytes read and the remaining input. -/
def readUntilNewline : Str → Str × Str
  | [] => ([], [])
  | c :: rest =>
    if c = '\n' then ([c], rest)
    else (c :: (readUntilNewline rest).1, (readUntilNewline rest).2)

/-- `Kel103::send_recv`: send the message, then read one reply line (up to
and including the next newline) and decode it as text. -/
def send_recv (message : Str) (dev : Device) : Except KelError Str × Device :=
  let dev := send message dev
  (.ok (readUntilNewline dev.input).1, { dev with input := (readUntilNewline dev.input).2 })

/-- `Kel103::device_info`: send `*IDN?` and return the reply line. -/
def device_info (dev : Device) : Except KelError Str × Device :=
  send_recv (str "*IDN?") dev

/-- `Kel103::new` after the transport has been opened: run the
identification handshake; the reply must contain `KEL103`, otherwise the
construction fails with `deviceModel` carrying the reply and no handle is
returned (the transport is dropped). -/
def Kel103.new (dev : Device) : Except KelError Device :=
  match device_info dev with
  | (.error e, _) => .error e
  | (.ok info, dev) =>
    if !containsSub info (str "KEL103") then .error (.deviceModel info)
    else .ok dev

/-- `Kel103::measure_volt`: query `:MEAS:VOLT?`, strip trailing `V`/LF/CR,
trim, parse as a float. -/
def measure_volt (dev : Device) : Except KelError ℚ × Device :=
  match send_recv (str ":MEAS:VOLT?") dev with
  | (.error e, dev) => (.error e, dev)
  | (.ok s, dev) =>
    let val_str := trimStr (trimEndMatches ['V', '\n', '\r'] s)
    match parseFloatR val_str with
    | .ok v => (.ok v, dev)
    | .error k => (.error (.parseFloat k), dev)

/-- `Kel103::measure_set_volt`: query `:VOLT?`, same reply processing. -/
def measure_set_volt (dev : Device) : Except KelError ℚ × Device :=
  match send_recv (str ":VOLT?") dev with
  | (.error e, dev) => (.error e, dev)
  | (.ok s, dev) =>
    let val_str := trimStr (trimEndMatches ['V', '\n', '\r'] s)
    match parseFloatR val_str with
    | .ok v => (.ok v, dev)
    | .error k => (.error (.parseFloat k), dev)

/-- `Kel103::set_volt`: send `:VOLT [3-decimal]V`, re-query the set voltage
and fail with a value error naming both values when the observed value
differs from the requested one by more than the tolerance. -/
def set_volt (voltage : ℚ) (dev : Device) : Except KelError Unit × Device :=
  let cmd := str ":VOLT " ++ formatFixed3 voltage ++ ['V']
  let dev := send cmd dev
  match measure_set_volt dev with
  | (.error e, dev) => (.error e, dev)
  | (.ok set_v, dev) =>
    if ratAbs (ratSub set_v voltage) > tol then
      (.error (.valueError (str "Voltage") voltage set_v), dev)
    else (.ok (), dev)

/-- `Kel103::measure_power`: query `:MEAS:POW?`, strip trailing `W`/LF/CR,
trim, parse as a float. -/
def measure_power (dev : Device) : Except KelError ℚ × Device :=
  match send_recv (str ":MEAS:POW?") dev with
  | (.error e, dev) => (.error e, dev)
  | (.ok s, dev) =>
    let val_str := trimStr (trimEndMatches ['W', '\n', '\r'] s)
    match parseFloatR val_str with
    | .ok v => (.ok v, dev)
    | .error k => (.error (.parseFloat k), dev)

/-- `Kel103::measure_set_power`: query `:POW?`, same reply processing. -/
def measure_set_power (dev : Device) : Except KelError ℚ × Device :=
  match send_recv (str ":POW?") dev with
  | (.error e, dev) => (.error e, dev)
  | (.ok s, dev) =>
    let val_str := trimStr (trimEndMatches ['W', '\n', '\r'] s)
    match parseFloatR val_str with
    | .ok v => (.ok v, dev)
    | .error k => (.error (.parseFloat k), dev)

/-- `Kel103::set_power`: send `:POW [3-decimal]W`, then verify via the set
power query within the tolerance. -/
def set_power (power : ℚ) (dev : Device) : Except KelError Unit × Device :=
  let cmd := str ":POW " ++ formatFixed3 power ++ ['W']
  let dev := send cmd dev
  match measure_set_power dev with
  | (.error e, dev) => (.error e, dev)
  | (.ok set_p, dev) =>
    if ratAbs (ratSub set_p power) > tol then
      (.error (.valueError (str "Power") power set_p), dev)
    else (.ok (), dev)

/-- `Kel103::measure_current`: query `:MEAS:CURR?`, strip trailing `A`/LF/CR,
trim, parse as a float. -/
def measure_current (dev : Device) : Except KelError ℚ × Device :=
  match send_recv (str ":MEAS:CURR?") dev with
  | (.error e, dev) => (.error e, dev)
  | (.ok s, dev) =>
    let val_str := trimStr (trimEndMatches ['A', '\n', '\r'] s)
    match parseFloatR val_str with
    | .ok v => (.ok v, dev)
    | .error k => (.error (.parseFloat k), dev)

/-- `Kel103::measure_set_current`: query `:CURR?`, same reply processing. -/
def measure_set_current (dev : Device) : Except KelError ℚ × Device :=
  match send_recv (str ":CURR?") dev with
  | (.error e, dev) => (.error e, dev)
  | (.ok s, dev) =>
    let val_str := trimStr (trimEndMatches ['A', '\n', '\r'] s)
    match parseFloatR val_str with
    | .ok v => (.ok v, dev)
    | .error k => (.error (.parseFloat k), dev)

/-- `Kel103::set_current`: send `:CURR [3-decimal]A`, then verify via the
set current query within the tolerance. -/
def set_current (current : ℚ) (dev : Device) : Except KelError Unit × Device :=
  let cmd := str ":CURR " ++ formatFixed3 current ++ ['A']
  let dev := send cmd dev
  match measure_set_current dev with
  | (.error e, dev) => (.error e, dev)
  | (.ok set_c, dev) =>
    if ratAbs (ratSub set_c current) > tol then
      (.error (.valueError (str "Current") current set_c), dev)
    else (.ok (), dev)

/-- `Kel103::check_output`: query `:INP?`; a reply containing `OFF` means
false, otherwise one containing `ON` means true, otherwise a device error
carrying the raw reply. -/
def check_output (dev : Device) : Except KelError Bool × Device :=
  match send_recv (str ":INP?") dev with
  | (.error e, dev) => (.error e, dev)
  | (.ok s, dev) =>
    if containsSub s (str "OFF") then (.ok false, dev)
    else if containsSub s (str "ON") then (.ok true, dev)
    else (.error (.deviceError s), dev)

/-- `Kel103::set_output`: send `:INP 1` or `:INP 0`, then re-query and
verify the boolean state. -/
def set_output (state : Bool) (dev : Device) : Except KelError Unit × Device :=
  let cmd := if state then str ":INP 1" else str ":INP 0"
  let dev := send cmd dev
  match check_output dev with
  | (.error e, dev) => (.error e, dev)
  | (.ok actual_state, dev) =>
    if actual_state != state then
      (.error (.valueErrorBool state actual_state), dev)
    else (.ok (), dev)

/-- `Kel103::set_constant_current`: fire-and-forget `:FUNC CC`. -/
def set_constant_current (dev : Device) : Except KelError Unit × Device :=
  (.ok (), send (str ":FUNC CC") dev)

/-- `Kel103::set_constant_power`: fire-and-forget `:FUNC CW`. -/
def set_constant_power (dev : Device) : Except KelError Unit × Device :=
  (.ok (), send (str ":FUNC CW") dev)

/-- `Kel103::set_constant_resistance`: fire-and-forget `:FUNC CR`. -/
def set_constant_resistance (dev : Device) : Except KelError Unit × Device :=
  (.ok (), send (str ":FUNC CR") dev)

/-- `Kel103::set_dynamic_mode_cv`: one command line, discriminator 1, the
four parameters formatted to 3 decimals with unit suffixes; no read back. -/
def set_dynamic_mode_cv (voltage1 voltage2 freq dutycycle : ℚ)
    (dev : Device) : Except KelError Unit × Device :=
  let cmd := str ":DYN 1," ++ formatFixed3 voltage1 ++ str "V," ++
    formatFixed3 voltage2 ++ str "V," ++ formatFixed3 freq ++ str "HZ," ++
    formatFixed3 dutycycle ++ str "%"
  (.ok (), send cmd dev)

/-- `Kel103::set_dynamic_mode_cc`: one command line, discriminator 2, the
six parameters formatted to 3 decimals with unit suffixes; no read back. -/
def set_dynamic_mode_cc (slope1 slope2 current1 current2 freq dutycycle : ℚ)
    (dev : Device) : Except KelError Unit × Device :=
  let cmd := str ":DYN 2," ++ formatFixed3 slope1 ++ str "A/uS," ++
    formatFixed3 slope2 ++ str "A/uS," ++ formatFixed3 current1 ++ str "A," ++
    formatFixed3 current2 ++ str "A," ++ formatFixed3 freq ++ str "HZ," ++
    formatFixed3 dutycycle ++ str "%"
  (.ok (), send cmd dev)

/-- `Kel103::get_dynamic_mode`: query `:DYN?` and return the reply with
trailing newlines stripped, no structured parsing. -/
def get_dynamic_mode (dev : Device) : Except KelError Str × Device :=
  match send_recv (str ":DYN?") dev with
  | (.error e, dev) => (.error e, dev)
  | (.ok s, dev) => (.ok (trimEndMatches ['\n'] s), dev)

/-- The value a set-value query reply denotes for a given unit letter: first
line of the queued input, unit/CR/LF stripped, trimmed, parsed. -/
def replyValue (unit : Char) (input : Str) : Except FloatErrorKind ℚ :=
  parseFloatR (trimStr (trimEndMatches [unit, '\n', '\r']
    (readUntilNewline input).1))

theorem ratSub_eq (a b : ℚ) : ratSub a b = a - b := by
  rw [ratSub, Rat.mkRat_eq_divInt]
  conv_rhs => rw [← Rat.num_divInt_den a, ← Rat.num_divInt_den b]
  rw [Rat.divInt_sub_divInt _ _ (by exact_mod_cast a.den_nz) (by exact_mod_cast b.den_nz)]
  push_cast
  ring_nf

theorem ratAbs_eq (q : ℚ) : ratAbs q = |q| := by
  rw [ratAbs]
  rcases lt_or_le q 0 with h | h
  · rw [if_pos h, abs_of_neg h]
  · rw [if_neg (not_lt.2 h), abs_of_nonneg h]

theorem tol_eq : tol = 1 / 1000000000 := by
  rw [tol, Rat.mkRat_eq_divInt, Rat.divInt_eq_div]
  norm_num

theorem readUntilNewline_of_not_mem {s : Str} (h : '\n' ∉ s) :
    readUntilNewline s = (s, []) := by
  induction s with
  | nil => rfl
  | cons c rest ih =>
    have hc : c ≠ '\n' := fun hc => h (hc ▸ List.mem_cons_self c rest)
    have hr : '\n' ∉ rest := fun hm => h (List.mem_cons_of_mem c hm)
    simp [readUntilNewline, hc, ih hr]

theorem readUntilNewline_append {a : Str} (t : Str) (h : '\n' ∉ a) :
    readUntilNewline (a ++ '\n' :: t) = (a ++ ['\n'], t) := by
  induction a with
  | nil => simp [readUntilNewline]
  | cons c rest ih =>
    have hc : c ≠ '\n' := fun hc => h (hc ▸ List.mem_cons_self c rest)
    have hr : '\n' ∉ rest := fun hm => h (List.mem_cons_of_mem c hm)
    simp [readUntilNewline, hc, ih hr]

theorem dropWhile_eq_self_of_none {p : Char → Bool} {l : Str}
    (h : ∀ c ∈ l, p c = false) : l.dropWhile p = l := by
  cases l with
  | nil => rfl
  | cons c rest => simp [List.dropWhile, h c (List.mem_cons_self c rest)]

theorem trimEnd_newline_of_not_mem {a : Str} (h : '\n' ∉ a) :
    trimEndMatches ['\n'] a = a := by
  rw [trimEndMatches]
  rw [dropWhile_eq_self_of_none, List.reverse_reverse]
  intro c hc
  have : c ≠ '\n' := fun he => h (he ▸ (List.mem_reverse).1 hc)
  simp [this]

theorem trimEnd_newline_concat {a : Str} (h : '\n' ∉ a) :
    trimEndMatches ['\n'] (a ++ ['\n']) = a := by
  rw [trimEndMatches]
  have h1 : (a ++ ['\n']).reverse = '\n' :: a.reverse := by simp
  rw [h1, List.dropWhile_cons, if_pos (by decide)]
  rw [dropWhile_eq_self_of_none, List.reverse_reverse]
  intro c hc
  have : c ≠ '\n' := fun he => h (he ▸ (List.mem_reverse).1 hc)
  simp [this]

theorem readUntilNewline_line_shape (s : Str) :
    '\n' ∉ (readUntilNewline s).1 ∨
      ∃ a, '\n' ∉ a ∧ (readUntilNewline s).1 = a ++ ['\n'] := by
  induction s with
  | nil => left; simp [readUntilNewline]
  | cons c rest ih =>
    by_cases hc : c = '\n'
    · right
      exact ⟨[], by simp, by simp [readUntilNewline, hc]⟩
    · rcases ih with h | ⟨a, ha, he⟩
      · left
        simp only [readUntilNewline, if_neg hc]
        intro hm
        rcases List.mem_cons.1 hm with h1 | h1
        · exact hc h1.symm
        · exact h h1
      · right
        refine ⟨c :: a, ?_, ?_⟩
        · intro hm
          rcases List.mem_cons.1 hm with h1 | h1
          · exact hc h1.symm
          · exact ha h1
        · simp [readUntilNewline, if_neg hc, he]

/-- C6: `set_dynamic_mode_cv(1.0, 2.0, 50.0, 25.0)` writes exactly the
command line `:DYN 1,1.000V,2.000V,50.000HZ,25.000%` followed by the newline
terminator, flushes once, and performs no verification read afterward (the
queued input is untouched). -/
theorem set_dynamic_mode_cv_line (dev : Device) :
    set_dynamic_mode_cv 1 2 50 25 dev =
      (.ok (),
       { written := dev.written ++ str ":DYN 1,1.000V,2.000V,50.000HZ,25.000%" ++ ['\n']
         flushes := dev.flushes + 1
         input := dev.input }) := by
  have hcmd : str ":DYN 1," ++ formatFixed3 1 ++ str "V," ++
      formatFixed3 2 ++ str "V," ++ formatFixed3 50 ++ str "HZ," ++
      formatFixed3 25 ++ str "%" =
      str ":DYN 1,1.000V,2.000V,50.000HZ,25.000%" := by decide
  simp only [set_dynamic_mode_cv]
  rw [hcmd]
  simp [send]

/-- C7: `get_dynamic_mode` issues `:DYN?` and returns the reply line with
only a trailing line feed removed and nothing else changed: the reply line
read by `send_recv` contains a newline at most as its final character, so
the trailing strip removes exactly that character when present and is the
identity otherwise. -/
theorem get_dynamic_mode_strip (dev : Device) :
    (get_dynamic_mode dev =
      (.ok (trimEndMatches ['\n'] (readUntilNewline dev.input).1),
       { written := dev.written ++ str ":DYN?" ++ ['\n']
         flushes := dev.flushes + 1
         input := (readUntilNewline dev.input).2 })) ∧
    trimEndMatches ['\n'] (readUntilNewline dev.input).1 =
      (if (readUntilNewline dev.input).1.getLast? = some '\n'
       then (readUntilNewline dev.input).1.dropLast
       else (readUntilNewline dev.input).1) := by
  constructor
  · simp [get_dynamic_mode, send_recv, send]
  · rcases readUntilNewline_line_shape dev.input with h | ⟨a, ha, he⟩
    · rw [trimEnd_newline_of_not_mem h, if_neg]
      intro hl
      exact h (List.mem_of_mem_getLast? hl)
    · rw [he, trimEnd_newline_concat ha, if_pos, List.dropLast_concat]
      simp

/-- C5: `send_recv` writes exactly the command bytes followed by a single
newline, flushes once, and consumes exactly one reply line (up to and
including the next newline); consequently two sequential `measure_volt`
calls against a transport that has queued two reply lines return the two
values in order, each line consumed exactly once. -/
theorem send_recv_one_line (msg : Str) (dev : Device) :
    (send_recv msg dev =
      (.ok (readUntilNewline dev.input).1,
       { written := dev.written ++ msg ++ ['\n']
         flushes := dev.flushes + 1
         input := (readUntilNewline dev.input).2 })) ∧
    (∀ (a b rest : Str) (qa qb : ℚ),
      '\n' ∉ a → '\n' ∉ b →
      parseFloatR (trimStr (trimEndMatches ['V', '\n', '\r'] (a ++ ['\n']))) = .ok qa →
      parseFloatR (trimStr (trimEndMatches ['V', '\n', '\r'] (b ++ ['\n']))) = .ok qb →
      dev.input = a ++ '\n' :: (b ++ '\n' :: rest) →
      (measure_volt dev).1 = .ok qa ∧
      (measure_volt dev).2.input = b ++ '\n' :: rest ∧
      (measure_volt (measure_volt dev).2).1 = .ok qb ∧
      (measure_volt (measure_volt dev).2).2.input = rest) := by
  constructor
  · simp [send_recv, send]
  · intro a b rest qa qb ha hb hqa hqb hinput
    have h1 : readUntilNewline dev.input = (a ++ ['\n'], b ++ '\n' :: rest) := by
      rw [hinput]; exact readUntilNewline_append _ ha
    have h2 : readUntilNewline (b ++ '\n' :: rest) = (b ++ ['\n'], rest) :=
      readUntilNewline_append _ hb
    refine ⟨?_, ?_, ?_, ?_⟩ <;>
      simp [measure_volt, send_recv, send, h1, h2, hqa, hqb]

/-- C5 witness: with the two reply lines `1.5V` and `2.5V` queued, two
sequential `measure_volt` calls return 3/2 then 5/2, consuming one line
each. -/
theorem send_recv_one_line_witness :
    (measure_volt
      { written := [], flushes := 0, input := str "1.5V\n2.5V\n" }).1
        = .ok (mkRat 3 2) ∧
    (measure_volt (measure_volt
      { written := [], flushes := 0, input := str "1.5V\n2.5V\n" }).2).1
        = .ok (mkRat 5 2) := by
  have h := (send_recv_one_line (str "x")
      { written := [], flushes := 0, input := str "1.5V\n2.5V\n" }).2
    (str "1.5V") (str "2.5V") [] (mkRat 3 2) (mkRat 5 2)
    (by decide) (by decide) (by decide) (by decide) (by decide)
  exact ⟨h.1, h.2.2.1⟩

/-- C9: `send_recv` does not require the reply to be newline terminated:
when no newline is queued, it returns all queued bytes (possibly the empty
string) as a successful reply rather than an error; in the model (which has
no transport I/O failures and whose replies are character strings) the read
never fails. -/
theorem send_recv_eof_ok (msg : Str) (dev : Device) (h : '\n' ∉ dev.input) :
    (send_recv msg dev).1 = .ok dev.input ∧
    (send_recv msg dev).2.input = [] ∧
    (∀ (m : Str) (d : Device),
      (send_recv m d).1 = .ok (readUntilNewline d.input).1) := by
  have hr : readUntilNewline dev.input = (dev.input, []) :=
    readUntilNewline_of_not_mem h
  refine ⟨?_, ?_, ?_⟩
  · simp [send_recv, send, hr]
  · simp [send_recv, send, hr]
  · intro m d; simp [send_recv, send]

/-- C9 witness: a non-terminated reply is returned whole, and an empty
queue yields the empty reply, both successfully. -/
theorem send_recv_eof_ok_witness :
    ((send_recv (str "*IDN?")
        { written := [], flushes := 0, input := str "KEL103" }).1
      = .ok (str "KEL103")) ∧
    ((send_recv (str ":DYN?")
        { written := [], flushes := 0, input := [] }).1 = .ok []) :=
  ⟨(send_recv_eof_ok (str "*IDN?")
      { written := [], flushes := 0, input := str "KEL103" } (by decide)).1,
   (send_recv_eof_ok (str ":DYN?")
      { written := [], flushes := 0, input := [] } (by decide)).1⟩

/-- C3: construction issues `*IDN?` on the freshly opened transport and
succeeds exactly when the reply contains `KEL103`; otherwise it fails with
a device-model error carrying the reply text and returns no handle. -/
theorem kel_new_handshake (dev : Device) :
    (containsSub (readUntilNewline dev.input).1 (str "KEL103") = true →
      Kel103.new dev = .ok
        { written := dev.written ++ str "*IDN?" ++ ['\n']
          flushes := dev.flushes + 1
          input := (readUntilNewline dev.input).2 }) ∧
    (containsSub (readUntilNewline dev.input).1 (str "KEL103") = false →
      Kel103.new dev
        = .error (.deviceModel (readUntilNewline dev.input).1)) := by
  constructor <;> intro h <;>
    simp [Kel103.new, device_info, send_recv, send, h]

/-- C3 witness: the spec's sample replies — construction succeeds on
`KEL103,FW1.2` and fails with the model-mismatch error on `OTHERMODEL,1.0`. -/
theorem kel_new_handshake_witness :
    Kel103.new { written := [], flushes := 0, input := str "KEL103,FW1.2\n" }
      = .ok { written := str "*IDN?" ++ ['\n'], flushes := 1, input := [] } ∧
    Kel103.new { written := [], flushes := 0, input := str "OTHERMODEL,1.0\n" }
      = .error (.deviceModel (str "OTHERMODEL,1.0\n")) :=
  ⟨(kel_new_handshake
      { written := [], flushes := 0, input := str "KEL103,FW1.2\n" }).1 (by decide),
   (kel_new_handshake
      { written := [], flushes := 0, input := str "OTHERMODEL,1.0\n" }).2 (by decide)⟩

/-- C2 counterexample: the reply `OFFON` (with newline) contains the
substring `ON`, yet `check_output` returns `false`, refuting the claim that
any reply containing `ON` yields `true`. -/
theorem check_output_on_cex :
    containsSub (str "OFFON\n") (str "ON") = true ∧
    (check_output
      { written := [], flushes := 0, input := str "OFFON\n" }).1 = .ok false :=
  ⟨by decide, by decide⟩

/-- C2 amended: `check_output` returns `false` whenever the reply contains
`OFF`; it returns `true` whenever the reply contains `ON` but not `OFF`;
and when the reply contains neither token it fails with a device error
carrying the raw reply. -/
theorem check_output_token_rules (dev : Device) :
    (containsSub (readUntilNewline dev.input).1 (str "OFF") = true →
      (check_output dev).1 = .ok false) ∧
    (containsSub (readUntilNewline dev.input).1 (str "OFF") = false →
      containsSub (readUntilNewline dev.input).1 (str "ON") = true →
      (check_output dev).1 = .ok true) ∧
    (containsSub (readUntilNewline dev.input).1 (str "OFF") = false →
      containsSub (readUntilNewline dev.input).1 (str "ON") = false →
      (check_output dev).1
        = .error (.deviceError (readUntilNewline dev.input).1)) := by
  refine ⟨fun h1 => ?_, fun h1 h2 => ?_, fun h1 h2 => ?_⟩ <;>
    simp [check_output, send_recv, send, h1]
  · simp [h2]
  · simp [h2]

/-- C2 amended witness: the spec's three sample replies. -/
theorem check_output_token_rules_witness :
    (check_output { written := [], flushes := 0, input := str "OFF\n" }).1
      = .ok false ∧
    (check_output { written := [], flushes := 0, input := str "ON\n" }).1
      = .ok true ∧
    (check_output { written := [], flushes := 0, input := str "UNKNOWN\n" }).1
      = .error (.deviceError (str "UNKNOWN\n")) :=
  ⟨(check_output_token_rules
      { written := [], flushes := 0, input := str "OFF\n" }).1 (by decide),
   (check_output_token_rules
      { written := [], flushes := 0, input := str "ON\n" }).2.1 (by decide) (by decide),
   (check_output_token_rules
      { written := [], flushes := 0, input := str "UNKNOWN\n" }).2.2
        (by decide) (by decide)⟩

/-- C8: whenever the reply contains `OFF`, `check_output` returns `false`
regardless of whether the reply also contains `ON`, because the source
tests for `OFF` before testing for `ON`. -/
theorem check_output_off_first (dev : Device)
    (h : containsSub (readUntilNewline dev.input).1 (str "OFF") = true) :
    (check_output dev).1 = .ok false := by
  simp [check_output, send_recv, send, h]

/-- C8 witness: the reply `OFFON` (with newline) contains both tokens and
yields `false`. -/
theorem check_output_off_first_witness :
    containsSub (readUntilNewline (str "OFFON\n")).1 (str "ON") = true ∧
    (check_output
      { written := [], flushes := 0, input := str "OFFON\n" }).1 = .ok false :=
  ⟨by decide,
   check_output_off_first
     { written := [], flushes := 0, input := str "OFFON\n" } (by decide)⟩

/-- C4 counterexample: the parse error wraps only the kind of
`std::num::ParseFloatError`, which does not carry the offending text, so
two different non-numeric residues (`abc` and `xyz`) produce the very same
error value — the error cannot identify the offending text. -/
theorem measure_parse_error_cex :
    (measure_volt { written := [], flushes := 0, input := str "abc\n" }).1
      = .error (.parseFloat .invalid) ∧
    (measure_volt { written := [], flushes := 0, input := str "xyz\n" }).1
      = .error (.parseFloat .invalid) ∧
    trimStr (trimEndMatches ['V', '\n', '\r'] (str "abc\n")) ≠
      trimStr (trimEndMatches ['V', '\n', '\r'] (str "xyz\n")) :=
  ⟨by decide, by decide, by decide⟩

/-- C4 amended: every measure operation strips any combination of trailing
unit letter, carriage return, and line feed from the reply line, trims
surrounding white space, and parses the residue as a float; `12.500V` with
CRLF yields the residue `12.500`, which parses to 12.5; a non-numeric
residue yields a parse error carrying the failure kind (empty or invalid
literal) but not the offending text. -/
theorem measure_reply_parsing (dev : Device) :
    (measure_volt dev =
      ((match parseFloatR (trimStr (trimEndMatches ['V', '\n', '\r']
          (readUntilNewline dev.input).1)) with
        | .ok q => .ok q
        | .error k => .error (.parseFloat k)),
       { written := dev.written ++ str ":MEAS:VOLT?" ++ ['\n']
         flushes := dev.flushes + 1
         input := (readUntilNewline dev.input).2 })) ∧
    (measure_current dev =
      ((match parseFloatR (trimStr (trimEndMatches ['A', '\n', '\r']
          (readUntilNewline dev.input).1)) with
        | .ok q => .ok q
        | .error k => .error (.parseFloat k)),
       { written := dev.written ++ str ":MEAS:CURR?" ++ ['\n']
         flushes := dev.flushes + 1
         input := (readUntilNewline dev.input).2 })) ∧
    trimStr (trimEndMatches ['V', '\n', '\r'] (str "12.500V\r\n"))
      = str "12.500" ∧
    parseFloatR (str "12.500") = .ok (mkRat 25 2) ∧
    (mkRat 25 2 : ℚ) = 25 / 2 ∧
    (measure_volt { written := [], flushes := 0, input := str "12.500V\r\n" }).1
      = .ok (mkRat 25 2) := by
  refine ⟨?_, ?_, by decide, by decide, ?_, by decide⟩
  · cases hp : parseFloatR (trimStr (trimEndMatches ['V', '\n', '\r']
        (readUntilNewline dev.input).1)) with
    | ok q => simp [measure_volt, send_recv, send, hp]
    | error k => simp [measure_volt, send_recv, send, hp]
  · cases hp : parseFloatR (trimStr (trimEndMatches ['A', '\n', '\r']
        (readUntilNewline dev.input).1)) with
    | ok q => simp [measure_current, send_recv, send, hp]
    | error k => simp [measure_current, send_recv, send, hp]
  · rw [Rat.mkRat_eq_divInt, Rat.divInt_eq_div]; norm_num

/-- C1: each numeric set operation (voltage, power, current) writes its
formatted command line and then the corresponding set-value query line,
each exactly once; it succeeds exactly when the observed value is within
1e-9 of the requested value, and otherwise fails with a value error
carrying both the requested and the observed value; the final transport
state is the same in both outcomes — the write is neither retried nor
rolled back. -/
theorem set_numeric_verified (v qV qW qA : ℚ) (dev : Device)
    (hV : replyValue 'V' dev.input = .ok qV)
    (hW : replyValue 'W' dev.input = .ok qW)
    (hA : replyValue 'A' dev.input = .ok qA) :
    (set_volt v dev =
      ((if |qV - v| ≤ tol then .ok ()
        else .error (.valueError (str "Voltage") v qV)),
       { written := dev.written ++ (str ":VOLT " ++ formatFixed3 v ++ ['V'])
           ++ ['\n'] ++ str ":VOLT?" ++ ['\n']
         flushes := dev.flushes + 2
         input := (readUntilNewline dev.input).2 })) ∧
    (set_power v dev =
      ((if |qW - v| ≤ tol then .ok ()
        else .error (.valueError (str "Power") v qW)),
       { written := dev.written ++ (str ":POW " ++ formatFixed3 v ++ ['W'])
           ++ ['\n'] ++ str ":POW?" ++ ['\n']
         flushes := dev.flushes + 2
         input := (readUntilNewline dev.input).2 })) ∧
    (set_current v dev =
      ((if |qA - v| ≤ tol then .ok ()
        else .error (.valueError (str "Current") v qA)),
       { written := dev.written ++ (str ":CURR " ++ formatFixed3 v ++ ['A'])
           ++ ['\n'] ++ str ":CURR?" ++ ['\n']
         flushes := dev.flushes + 2
         input := (readUntilNewline dev.input).2 })) := by
  have hV' : parseFloatR (trimStr (trimEndMatches ['V', '\n', '\r']
      (readUntilNewline dev.input).1)) = .ok qV := hV
  have hW' : parseFloatR (trimStr (trimEndMatches ['W', '\n', '\r']
      (readUntilNewline dev.input).1)) = .ok qW := hW
  have hA' : parseFloatR (trimStr (trimEndMatches ['A', '\n', '\r']
      (readUntilNewline dev.input).1)) = .ok qA := hA
  refine ⟨?_, ?_, ?_⟩
  · rcases le_or_lt |qV - v| tol with h | h
    · have hc : ¬ ratAbs (ratSub qV v) > tol := by
        rw [ratAbs_eq, ratSub_eq]; exact not_lt.2 h
      simp [set_volt, measure_set_volt, send_recv, send, hV', hc, h]
    · have hc : ratAbs (ratSub qV v) > tol := by
        rw [ratAbs_eq, ratSub_eq]; exact h
      simp [set_volt, measure_set_volt, send_recv, send, hV', hc, not_le.2 h]
  · rcases le_or_lt |qW - v| tol with h | h
    · have hc : ¬ ratAbs (ratSub qW v) > tol := by
        rw [ratAbs_eq, ratSub_eq]; exact not_lt.2 h
      simp [set_power, measure_set_power, send_recv, send, hW', hc, h]
    · have hc : ratAbs (ratSub qW v) > tol := by
        rw [ratAbs_eq, ratSub_eq]; exact h
      simp [set_power, measure_set_power, send_recv, send, hW', hc, not_le.2 h]
  · rcases le_or_lt |qA - v| tol with h | h
    · have hc : ¬ ratAbs (ratSub qA v) > tol := by
        rw [ratAbs_eq, ratSub_eq]; exact not_lt.2 h
      simp [set_current, measure_set_current, send_recv, send, hA', hc, h]
    · have hc : ratAbs (ratSub qA v) > tol := by
        rw [ratAbs_eq, ratSub_eq]; exact h
      simp [set_current, measure_set_current, send_recv, send, hA', hc, not_le.2 h]

/-- C1 witness: a suffix-free echo of exactly the requested value 5 makes
`set_volt` succeed, and an echo of 6 makes it fail with the value error
naming both values. -/
theorem set_numeric_verified_witness :
    (set_volt 5 { written := [], flushes := 0, input := str "5.000\n" }).1
      = .ok () ∧
    (set_volt 5 { written := [], flushes := 0, input := str "6.000\n" }).1
      = .error (.valueError (str "Voltage") 5 6) := by
  constructor
  · have h := (set_numeric_verified 5 5 5 5
        { written := [], flushes := 0, input := str "5.000\n" }
        (by decide) (by decide) (by decide)).1
    rw [if_pos (by rw [tol_eq]; norm_num)] at h
    simp [h]
  · have h := (set_numeric_verified 5 6 6 6
        { written := [], flushes := 0, input := str "6.000\n" }
        (by decide) (by decide) (by decide)).1
    rw [if_neg (by rw [tol_eq]; norm_num)] at h
    simp [h]

/-- C10: the post-write verification compares the observed value with the
caller's original requested value, not with the 3-decimal rendering that
was transmitted: when the device echoes back exactly the transmitted
rendering and that rendering's value differs from the request by more than
1e-9, the operation fails with the value error naming the original request
and the echoed value. -/
theorem set_verify_unrounded (v e : ℚ) (dev : Device) :
    (dev.input = formatFixed3 v ++ str "V" ++ ['\n'] →
      replyValue 'V' dev.input = .ok e →
      tol < |e - v| →
      (set_volt v dev).1 = .error (.valueError (str "Voltage") v e)) ∧
    (dev.input = formatFixed3 v ++ str "W" ++ ['\n'] →
      replyValue 'W' dev.input = .ok e →
      tol < |e - v| →
      (set_power v dev).1 = .error (.valueError (str "Power") v e)) := by
  constructor
  · intro _ he h
    have he' : parseFloatR (trimStr (trimEndMatches ['V', '\n', '\r']
        (readUntilNewline dev.input).1)) = .ok e := he
    have hc : ratAbs (ratSub e v) > tol := by
      rw [ratAbs_eq, ratSub_eq]; exact h
    simp [set_volt, measure_set_volt, send_recv, send, he', hc]
  · intro _ he h
    have he' : parseFloatR (trimStr (trimEndMatches ['W', '\n', '\r']
        (readUntilNewline dev.input).1)) = .ok e := he
    have hc : ratAbs (ratSub e v) > tol := by
      rw [ratAbs_eq, ratSub_eq]; exact h
    simp [set_power, measure_set_power, send_recv, send, he', hc]

/-- C10 witness: requesting 1/3 transmits `0.333`; even though the device
echoes back exactly `0.333V`, the verification compares 333/1000 with the
original 1/3 (difference 1/3000, far above 1e-9) and fails naming both. -/
theorem set_verify_unrounded_witness :
    (set_volt (mkRat 1 3)
        { written := []
          flushes := 0
          input := formatFixed3 (mkRat 1 3) ++ str "V" ++ ['\n'] }).1
      = .error (.valueError (str "Voltage") (mkRat 1 3) (mkRat 333 1000)) :=
  (set_verify_unrounded (mkRat 1 3) (mkRat 333 1000)
      { written := []
        flushes := 0
        input := formatFixed3 (mkRat 1 3) ++ str "V" ++ ['\n'] }).1
    rfl (by decide) (by rw [← ratAbs_eq, ← ratSub_eq]; decide)

end KelModel
